import Mathlib

/-!
Shallow embedding of `src/fluent/fluent.go` (package `fluent`,
masahide/fluent-logger-golang): a buffered asynchronous forwarder of
encoded log events.

Modelling conventions:
* byte strings are `List Nat`;
* the network connection is a `Conn` record that logs every write
  performed on it (`net.Conn` itself is external I/O);
* the mutable fields of the Go struct `Fluent` (`conn`, `buf`, the
  cancellation flag of `ctx`) are a `State` record threaded explicitly;
  closed connections are retained in `closedConns` so that what was
  written on them stays observable;
* the external msgpack encoder (`Message.MarshalMsg`, generated code not
  in `src/`) is an opaque function parameter `encode`;
* goroutine interleaving is resolved by explicit schedule parameters
  where a claim depends on it (see `send`).
-/

namespace Fluent

/-- Byte strings (`[]byte`) as lists of natural numbers. -/
abbrev Bytes := List Nat

/-- Go built-in `copy(dst, src)`: overwrites the first
`min dst.length src.length` elements of `dst` with those of `src` and
leaves the rest of `dst` unchanged; the result has `dst`'s length. -/
def goCopy (dst src : Bytes) : Bytes :=
  let n := min dst.length src.length
  src.take n ++ dst.drop n

/-- A connection handle (`io.WriteCloser`). `writes` logs every byte
string passed to `Write`, in order; `werr` is the error this handle
returns from `Write` (`none` = success). -/
structure Conn where
  writes : List Bytes := []
  werr : Option String := none
deriving Repr, DecidableEq

/-- `conn.Write(b)`: records the write and returns the handle's error. -/
def connWrite (c : Conn) (b : Bytes) : Conn × Option String :=
  ({ c with writes := c.writes ++ [b] }, c.werr)

/-- The configuration fields of `Config` that the embedded operations
read. The network-address fields only feed the external `net.Dial` and
are not modelled. `BufferLimit` and `RetryWait` are Go `int`s, hence
`Int`. -/
structure Config where
  bufferLimit : Int
  retryWait : Int
  maxRetry : Nat
  tagPrefix : String
  syncPost : Bool
deriving Repr, DecidableEq

/-- The mutable state of a `Fluent` value: `conn` (`nil` = `none`),
`buf`, and the cancellation flag of `f.ctx`. `closedConns` keeps the
handles discarded by `close` so their write logs remain observable. -/
structure State where
  conn : Option Conn := none
  buf : Bytes := []
  cancelled : Bool := false
  closedConns : List Conn := []
deriving Repr, DecidableEq

/-- `flushBuffer` (fluent.go:242-244): `f.buf = f.buf[0:0]`. -/
def flushBuffer (st : State) : State :=
  { st with buf := [] }

/-- Public `Close` (fluent.go:194-197): cancels the context and returns
`nil`; it does not itself touch `conn` or `buf`. -/
def Close (st : State) : State × Option String :=
  ({ st with cancelled := true }, none)

/-- Private `close` (fluent.go:200-207): a no-op when `conn` is already
`nil`; otherwise calls `conn.Close()` and sets `conn = nil`. The closed
handle moves to `closedConns`. -/
def close (st : State) : State :=
  match st.conn with
  | none => st
  | some c => { st with conn := none, closedConns := st.closedConns ++ [c] }

/-- Result of `send`: either the `error` value returned (`res none` =
success) or a runtime panic (nil-pointer dereference of `f.conn`). -/
inductive SendResult where
  | res (e : Option String)
  | panicked
deriving Repr, DecidableEq

/-- `send` (fluent.go:246-252). When `f.conn == nil` it calls
`f.reconnect()`, which only spawns a goroutine and returns at once; the
schedule parameter `sched` says which connection (if any) that goroutine
has installed by the time the write executes. The write itself is
`f.conn.Write(f.buf)` — it writes the buffer, not the `data` argument,
and dereferences `f.conn`, panicking if it is still `nil`. -/
def send (sched : Option Conn) (st : State) (data : Bytes) : State × SendResult :=
  let st1 := if st.conn.isNone then { st with conn := sched } else st
  match st1.conn with
  | none => (st1, .panicked)
  | some c =>
    let p := connWrite c st1.buf
    ({ st1 with conn := some p.1 }, .res p.2)

/-- `PostRawData` (fluent.go:180-184): `var buf []byte; copy(buf, f.buf);
f.postCh <- buf`. The destination slice is nil (length 0), so the copy
moves nothing, and the source is `f.buf`, not `data`; the value sent on
`postCh` (returned here) is therefore always the empty byte string. -/
def PostRawData (st : State) (data : Bytes) : Bytes :=
  goCopy [] st.buf

/-- The two normal-operation events the spooler loop (fluent.go:254-277)
selects between: bytes arriving on `postCh`, or the sender requesting a
batch on `sendChCh`. -/
inductive SpoolEvent where
  | post (data : Bytes)
  | drain
deriving Repr, DecidableEq

/-- The drain branch of the spooler (fluent.go:264-268): snapshot by
`var buf []byte; copy(buf, f.buf)` (again a copy into a nil slice),
flush the buffer, and hand the snapshot to the sender. Returns the new
state and the snapshot handed over. -/
def spoolDrain (st : State) : State × Bytes :=
  (flushBuffer st, goCopy [] st.buf)

/-- One iteration of the spooler loop on a normal-operation event
(fluent.go:257-268). The `post` branch appends the received bytes to
`f.buf` and resets the buffer when its length exceeds `BufferLimit`; the
`drain` branch is `spoolDrain`. The second component is the snapshot
handed to the sender, when the event is a drain. -/
def spoolerStep (cfg : Config) (st : State) : SpoolEvent → State × Option Bytes
  | .post data =>
    let st1 := { st with buf := st.buf ++ data }
    (if cfg.bufferLimit < (st1.buf.length : Int) then flushBuffer st1 else st1, none)
  | .drain =>
    let p := spoolDrain st
    (p.1, some p.2)

/-- One sender cycle that received a batch (fluent.go:278-294 together
with the spooler's drain branch): the spooler hands over a snapshot and
the sender calls `f.send(data)` on it. -/
def drainCycle (sched : Option Conn) (st : State) : State × SendResult :=
  let p := spoolDrain st
  send sched p.1 p.2

/-- The spooler's shutdown branch (fluent.go:269-274): after joining the
sender it runs `f.send(f.buf)`, then `f.flushBuffer()`, then `f.close()`.
A panic inside `send` aborts the rest. -/
def spoolShutdown (sched : Option Conn) (st : State) : State × SendResult :=
  match send sched st st.buf with
  | (st1, .panicked) => (st1, .panicked)
  | (st1, .res r) => (close (flushBuffer st1), .res r)

/-- A key/value record as built by `PostWithTime` (Go
`map[string]interface{}`); the `interface{}` values are opaque to every
embedded operation and are represented by naturals. -/
abbrev Record := List (String × Nat)

/-- Go map assignment `m[k] = v`: any earlier binding of `k` is
overwritten. -/
def mapSet (m : Record) (k : String) (v : Nat) : Record :=
  m.filter (fun p => p.1 ≠ k) ++ [(k, v)]

/-- One exported struct field as seen through `reflect`: its name, its
`msg` and `codec` tag values (`""` = tag absent), and its (opaque)
value. -/
structure StructField where
  name : String
  msgTag : String
  codecTag : String
  val : Nat
deriving Repr, DecidableEq

/-- The key chosen for a struct field (fluent.go:141-147): the `msg` tag
if non-empty, else the `codec` tag if non-empty, else the field name. -/
def fieldName (fld : StructField) : String :=
  if fld.msgTag ≠ "" then fld.msgTag
  else if fld.codecTag ≠ "" then fld.codecTag
  else fld.name

/-- The shapes of a Go `interface{}` argument that `PostWithTime`
distinguishes via `reflect`: the untyped `nil` interface (for which
`reflect.ValueOf(message).Type()` panics), a struct, a map (with a flag
recording whether its key type's kind is `String`), or a value of any
other kind. -/
inductive GoValue where
  | nilv
  | structv (fields : List StructField)
  | mapv (stringKeys : Bool) (entries : Record)
  | otherv
deriving Repr, DecidableEq

/-- Outcome of a post call: normal return of `nil`, normal return of an
`error` with the given message, or a runtime panic. -/
inductive PostResult where
  | ok
  | err (msg : String)
  | panicked
deriving Repr, DecidableEq

/-- `EncodeAndPostData` (fluent.go:167-178). `encode` stands for
`EncodeData` (fluent.go:186-191), whose body is the external generated
`MarshalMsg`; `none` models an encode error. On success: with `SyncPost`
the result of `f.send(data)` is returned on the calling context; without
it `f.PostRawData(data)` pushes a value on `postCh` (the third component
of the result) and `nil` is returned at once. The caller's state is
only touched on the synchronous path. -/
def EncodeAndPostData (encode : String → Int → Record → Option Bytes)
    (cfg : Config) (sched : Option Conn) (st : State)
    (tag : String) (tm : Int) (record : Record) :
    State × PostResult × Option Bytes :=
  match encode tag tm record with
  | none => (st, .err "EncodingError", none)
  | some data =>
    if cfg.syncPost then
      match send sched st data with
      | (st1, .panicked) => (st1, .panicked, none)
      | (st1, .res none) => (st1, .ok, none)
      | (st1, .res (some m)) => (st1, .err m, none)
    else
      (st, .ok, some (PostRawData st data))

/-- `PostWithTime` (fluent.go:128-165): prepends the tag prefix when
configured, then dispatches on the reflected kind of `message`: the
untyped nil interface panics at `msg.Type()`; a struct is flattened
field by field under `fieldName`; a map requires string keys
(`"map keys must be strings"`); every other kind fails with
`"messge must be a map"` (sic). -/
def PostWithTime (encode : String → Int → Record → Option Bytes)
    (cfg : Config) (sched : Option Conn) (st : State)
    (tag : String) (tm : Int) (v : GoValue) :
    State × PostResult × Option Bytes :=
  let tg := if cfg.tagPrefix.length > 0 then cfg.tagPrefix ++ "." ++ tag else tag
  match v with
  | .nilv => (st, .panicked, none)
  | .structv fields =>
    let kv := fields.foldl (fun m fld => mapSet m (fieldName fld) fld.val) []
    EncodeAndPostData encode cfg sched st tg tm kv
  | .mapv stringKeys entries =>
    if stringKeys then
      let kv := entries.foldl (fun m p => mapSet m p.1 p.2) []
      EncodeAndPostData encode cfg sched st tg tm kv
    else (st, .err "map keys must be strings", none)
  | .otherv => (st, .err "messge must be a map", none)

/-- `e` (fluent.go:222-224): `int(math.Pow(x, y))`, i.e. the power
truncated toward zero. At its only call site `x` is the constant
`defaultReconnectWaitIncreRate = 1.5` and `y` is an integer-valued
float, so an exact rational model applies: truncation toward zero of a
positive rational is its floor. -/
def e (x : ℚ) (y : Int) : Int :=
  ⌊x ^ y⌋

/-- The sleep computed after reconnect attempt `i` fails
(fluent.go:236): `RetryWait * e(1.5, float64(i-1))` milliseconds; it is
executed before attempt `i + 1`. -/
def waitTime (retryWait : Int) (i : Nat) : Int :=
  retryWait * e (3 / 2) ((i : Int) - 1)

/-- The sleep performed before reconnect attempt `i`: attempt 0 starts
at once; attempt `j + 1` is preceded by the sleep computed after the
failure of attempt `j`. -/
def sleepBefore (retryWait : Int) : Nat → Int
  | 0 => 0
  | j + 1 => waitTime retryWait j

/-- Outcome of the reconnect loop: connection re-established at attempt
`i`, or the `panic("fluent#reconnect: failed to reconnect!")`. -/
inductive ReconnectResult where
  | connected (attempt : Nat)
  | panicked
deriving Repr, DecidableEq

/-- The loop body of `reconnect` (fluent.go:228-238) from attempt `i`:
try `connect()` (`outcomes i = true` means success); on success break;
otherwise panic when `i == MaxRetry`, else sleep and continue with
`i + 1`. The fuel argument only bounds the recursion; started at
`maxRetry + 1 - i` it never runs out before the panic check fires. -/
def reconnectAux (maxRetry : Nat) (outcomes : Nat → Bool) : Nat → Nat → ReconnectResult
  | _, 0 => .panicked
  | i, fuel + 1 =>
    if outcomes i then .connected i
    else if i = maxRetry then .panicked
    else reconnectAux maxRetry outcomes (i + 1) fuel

/-- The goroutine spawned by `reconnect` (fluent.go:226-240), run on a
given sequence of `connect()` outcomes. -/
def reconnectLoop (maxRetry : Nat) (outcomes : Nat → Bool) : ReconnectResult :=
  reconnectAux maxRetry outcomes 0 (maxRetry + 1)

/-- A concrete stand-in for the external Encoder, used to instantiate
the opaque `encode` parameter in scenario evaluations: the envelope of a
record is the list of its (opaque) values, so `{"a": k}` encodes to
`[k]`. -/
def encDemo (tag : String) (tm : Int) (record : Record) : Option Bytes :=
  some (record.map Prod.snd)

/-- The defaulted asynchronous configuration of the concrete scenarios
(`defaultBufferLimit = 8*1024*1024`, `defaultRetryWait = 500`,
`defaultMaxRetry = 13`, no tag prefix, `SyncPost = false`). -/
def demoCfg : Config :=
  { bufferLimit := 8 * 1024 * 1024, retryWait := 500, maxRetry := 13,
    tagPrefix := "", syncPost := false }

/-- Initial state after a successful `New`: a live connection with an
empty write log, an empty buffer. -/
def st0 : State :=
  { conn := some {}, buf := [], cancelled := false, closedConns := [] }

/-- One asynchronous `Post` as the unbuffered channel `postCh` forces it
to interleave: the facade runs `PostWithTime` and blocks on `postCh`
until the spooler receives the pushed value; the spooler then runs its
`post` branch on that value. -/
def asyncPost (encode : String → Int → Record → Option Bytes) (cfg : Config)
    (st : State) (tag : String) (tm : Int) (v : GoValue) : State :=
  match PostWithTime encode cfg none st tag tm v with
  | (st1, _, some m) => (spoolerStep cfg st1 (.post m)).1
  | (st1, _, none) => st1

/-- The spec's closing scenario: three asynchronous `Post` calls with
tag `"t"` and records `{"a": 1}`, `{"a": 2}`, `{"a": 3}`, then `Close()`
and the spooler's shutdown branch. -/
def scenarioFinal : State × SendResult :=
  let s1 := asyncPost encDemo demoCfg st0 "t" 0 (.mapv true [("a", 1)])
  let s2 := asyncPost encDemo demoCfg s1 "t" 0 (.mapv true [("a", 2)])
  let s3 := asyncPost encDemo demoCfg s2 "t" 0 (.mapv true [("a", 3)])
  spoolShutdown none (Close s3).1

/-- `close` never changes the buffer, whichever branch it takes. -/
lemma close_buf (st : State) : (close st).buf = st.buf := by
  cases h : st.conn <;> simp [close, h]

/-- C1: the claim predicts that after three asynchronous posts of
`{"a":1}`, `{"a":2}`, `{"a":3}` (demo envelopes `[1]`, `[2]`, `[3]`)
and an immediate `Close`, the final flush transmits one write holding
`[1, 2, 3]`. Evaluating the embedded pipeline: the single write
performed on the connection is the empty byte string, because
`PostRawData` copies into a zero-length slice (and from `f.buf`, not
`data`), so every value pushed on `postCh` is empty and nothing ever
reaches the buffer. -/
theorem c1_scenario_transmits_nothing :
    scenarioFinal.1.closedConns = [{ writes := [[]], werr := none }] ∧
    (encDemo "t" 0 [("a", 1)]).getD [] ++ (encDemo "t" 0 [("a", 2)]).getD [] ++
      (encDemo "t" 0 [("a", 3)]).getD [] = [1, 2, 3] ∧
    ([[]] : List Bytes) ≠ [[1, 2, 3]] := by
  refine ⟨rfl, rfl, by decide⟩

/-- C2: the claim predicts that a synchronous post transmits exactly the
bytes the Encoder just produced. Evaluating the embedded code with
`f.buf = [9]` and an event encoding to `[5]`: the write performed on
the connection is `[9]` (`send` writes `f.buf`, ignoring its `data`
argument), not the freshly encoded `[5]`. -/
theorem c2_sync_post_writes_buffer_not_data :
    (EncodeAndPostData encDemo { demoCfg with syncPost := true } none
        { st0 with buf := [9] } "t" 0 [("a", 5)]).1.conn
      = some { writes := [[9]], werr := none } ∧
    encDemo "t" 0 [("a", 5)] = some [5] ∧ ([9] : Bytes) ≠ [5] := by
  refine ⟨rfl, rfl, by decide⟩

/-- C3: the claim predicts the drain snapshot equals the buffer contents
and no pending bytes are lost. Evaluating the embedded drain with
`f.buf = [1, 2, 3]`: the snapshot is `[]` (copy into a nil slice), the
buffer is then cleared, and the sender's write transmits `[]` — the
three pending bytes are lost. -/
theorem c3_drain_loses_pending_bytes :
    spoolDrain { st0 with buf := [1, 2, 3] } = (st0, ([] : Bytes)) ∧
    drainCycle none { st0 with buf := [1, 2, 3] }
      = ({ st0 with conn := some { writes := [[]], werr := none } },
         .res none) ∧
    ([] : Bytes) ≠ [1, 2, 3] := by
  refine ⟨rfl, rfl, by decide⟩

/-- C4 as stated is false: with `MaxRetry = 1`, after exactly
`MaxRetry = 1` consecutive connect failure (attempt 0 fails) the loop
does not reach the terminal panic — attempt 1 succeeds and the task can
send again. -/
theorem c4_counterexample :
    (∀ i < 1, (fun j => decide (j = 1)) i = false) ∧
    reconnectLoop 1 (fun j => decide (j = 1)) = .connected 1 := by decide

/-- Auxiliary characterisation of the reconnect loop body: started at
attempt `i` with fuel `maxRetry + 1 - i`, it panics exactly when every
attempt from `i` through `maxRetry` fails. -/
lemma reconnectAux_panicked_iff (maxRetry : Nat) (outcomes : Nat → Bool) :
    ∀ fuel i, i + fuel = maxRetry + 1 →
      (reconnectAux maxRetry outcomes i fuel = .panicked ↔
        ∀ j, i ≤ j → j ≤ maxRetry → outcomes j = false) := by
  intro fuel
  induction fuel with
  | zero =>
    intro i hi
    constructor
    · intro _ j hij hjm
      exfalso
      omega
    · intro _
      rfl
  | succ n ih =>
    intro i hi
    have him : i ≤ maxRetry := by omega
    by_cases ho : outcomes i = true
    · constructor
      · intro hL
        simp [reconnectAux, ho] at hL
      · intro hR
        have hfalse := hR i le_rfl him
        rw [ho] at hfalse
        cases hfalse
    · have hof : outcomes i = false := by simpa using ho
      by_cases hieq : i = maxRetry
      · subst hieq
        constructor
        · intro _ j hij hjm
          have hji : j = i := by omega
          rw [hji, hof]
        · intro _
          simp [reconnectAux, hof]
      · have hrec := ih (i + 1) (by omega)
        constructor
        · intro hL j hij hjm
          rcases Nat.eq_or_lt_of_le hij with heq | hlt
          · rw [← heq, hof]
          · refine hrec.mp ?_ j (by omega) hjm
            simpa [reconnectAux, hof, hieq] using hL
        · intro hR
          simp only [reconnectAux, hof, hieq]
          simp only [Bool.false_eq_true, if_false, if_neg hieq]
          exact hrec.mpr (fun j hij hjm => hR j (by omega) hjm)

/-- C4 amended: the reconnect loop reaches the terminal panic (after
which the sender can never send again) exactly when attempts `0`
through `MaxRetry` all fail — that is, after `MaxRetry + 1` consecutive
connect failures, not `MaxRetry`; the panic fires when the attempt with
index `MaxRetry` fails. -/
theorem c4_panic_iff_maxretry_plus_one_failures (maxRetry : Nat) (outcomes : Nat → Bool) :
    reconnectLoop maxRetry outcomes = .panicked ↔
      ∀ j, j ≤ maxRetry → outcomes j = false := by
  have h := reconnectAux_panicked_iff maxRetry outcomes (maxRetry + 1) 0 (by omega)
  simpa [reconnectLoop] using h

/-- Concrete instance of the amended C4: with `MaxRetry = 2` and every
attempt failing, the loop panics. -/
theorem c4_panic_iff_maxretry_plus_one_failures_witness :
    reconnectLoop 2 (fun _ => false) = .panicked :=
  (c4_panic_iff_maxretry_plus_one_failures 2 (fun _ => false)).mpr
    (fun _ _ => rfl)

/-- C5 as stated is false at attempt `i = 1` with `RetryWait = 500`:
the claim demands a sleep of at least `500 * 1.5^0 = 500` ms before
attempt 1, but the code sleeps `500 * int(1.5^(-1)) = 0` ms. -/
theorem c5_counterexample :
    sleepBefore 500 1 = 0 ∧
    ¬ ((500 : ℚ) * ((3 : ℚ) / 2) ^ ((1 : Int) - 1) ≤ ((sleepBefore 500 1 : Int) : ℚ)) := by
  have hpow : ((3 : ℚ) / 2) ^ (-1 : Int) = 2 / 3 := by
    rw [zpow_neg, zpow_one]
    norm_num
  have h0 : e (3 / 2) (-1) = 0 := by
    rw [e, hpow]
    rw [Int.floor_eq_zero_iff]
    constructor <;> norm_num
  have h1 : sleepBefore 500 1 = 0 := by
    simp [sleepBefore, waitTime, h0]
  refine ⟨h1, ?_⟩
  rw [h1]
  norm_num

/-- C5 amended: before reconnect attempt `i` (0-indexed, `i ≥ 1`) the
task sleeps `RetryWait * trunc(1.5^(i-2))` milliseconds, where `trunc`
is Go float-to-int truncation (zero for the negative exponent at
`i = 1`) and the growth rate is the fixed constant 1.5, not
configurable; attempt 0 is made with no prior wait. -/
theorem c5_truncated_backoff (w : Int) (i : Nat) (h : 1 ≤ i) :
    sleepBefore w i = w * e (3 / 2) ((i : Int) - 2) ∧ sleepBefore w 0 = 0 := by
  refine ⟨?_, rfl⟩
  obtain ⟨j, rfl⟩ : ∃ j, i = j + 1 := ⟨i - 1, by omega⟩
  have harg : ((j : Int) - 1) = (((j + 1 : Nat) : Int) - 2) := by
    push_cast
    ring
  show w * e (3 / 2) ((j : Int) - 1) = _
  rw [harg]

/-- Concrete instance of the amended C5 at `RetryWait = 500`, attempt 2:
the sleep is `500 * trunc(1.5^0) = 500` ms. -/
theorem c5_truncated_backoff_witness :
    (1 : Nat) ≤ 2 ∧ sleepBefore 500 2 = 500 * e (3 / 2) 0 := by
  have h := (c5_truncated_backoff 500 2 (by norm_num)).1
  norm_num at h
  exact ⟨by norm_num, h⟩

/-- C6: one spooler iteration leaves the buffer within the configured
limit — the `post` branch resets the buffer to empty in the same
iteration whenever the append pushed it past `BufferLimit`, the drain
branch empties it — and the shutdown branch (the only other writer)
also leaves it empty unless it dies in `send`'s panic. -/
theorem c6_buffer_bounded (cfg : Config) (st : State) (ev : SpoolEvent)
    (sched : Option Conn) (h : 0 ≤ cfg.bufferLimit) :
    (((spoolerStep cfg st ev).1.buf.length : Int) ≤ cfg.bufferLimit) ∧
    ((spoolShutdown sched st).2 = .panicked ∨ (spoolShutdown sched st).1.buf = []) := by
  constructor
  · cases ev with
    | post data =>
      simp only [spoolerStep]
      split
      · simpa [flushBuffer] using h
      · next hc => exact le_of_not_lt hc
    | drain =>
      simpa [spoolerStep, spoolDrain, flushBuffer] using h
  · unfold spoolShutdown
    rcases hs : send sched st st.buf with ⟨st1, r⟩
    cases r with
    | panicked =>
      left
      rfl
    | res rr =>
      right
      rw [close_buf]
      rfl

/-- Concrete instance of C6: the defaulted config, the fresh state, one
arriving byte. -/
theorem c6_buffer_bounded_witness :
    (0 : Int) ≤ demoCfg.bufferLimit ∧
    ((((spoolerStep demoCfg st0 (.post [1])).1.buf.length : Int) ≤ demoCfg.bufferLimit) ∧
     ((spoolShutdown none st0).2 = .panicked ∨ (spoolShutdown none st0).1.buf = [])) :=
  ⟨by decide, c6_buffer_bounded demoCfg st0 (.post [1]) none (by decide)⟩

/-- C7: the claim predicts that a `send` issued while the Connection is
absent completes a reconnect before writing. In the code `reconnect`
only spawns a goroutine and returns; on the schedule where that
goroutine has not yet installed a connection, `send` immediately
dereferences the still-nil `f.conn` and panics instead of writing after
a completed reconnect. -/
theorem c7_send_panics_when_disconnected :
    send none { conn := none, buf := [], cancelled := false, closedConns := [] } [1, 2, 3]
      = ({ conn := none, buf := [], cancelled := false, closedConns := [] },
         .panicked) := rfl

/-- C8: a value whose reflected kind is neither `Struct` nor `Map`, and
a map whose key kind is not `String`, make `PostWithTime` return the
record-shape error (`"messge must be a map"`, resp.
`"map keys must be strings"`) with the state — buffer and connection —
returned unchanged and nothing pushed toward the Spooler. -/
theorem c8_invalid_shape_local_error (encode : String → Int → Record → Option Bytes)
    (cfg : Config) (sched : Option Conn) (st : State) (tag : String) (tm : Int)
    (es : Record) :
    PostWithTime encode cfg sched st tag tm .otherv
      = (st, .err "messge must be a map", none) ∧
    PostWithTime encode cfg sched st tag tm (.mapv false es)
      = (st, .err "map keys must be strings", none) :=
  ⟨rfl, rfl⟩

/-- C9: `Close` is idempotent — both calls return `nil` and the second
changes nothing — and the internal `close` is a no-op once the
connection is already absent, so the handle is never closed twice. -/
theorem c9_close_idempotent (st : State) :
    (Close st).2 = none ∧ (Close (Close st).1).2 = none ∧
    (Close (Close st).1).1 = (Close st).1 ∧
    close (close st) = close st := by
  refine ⟨rfl, rfl, rfl, ?_⟩
  cases h : st.conn <;> simp [close, h]

/-- C10: posting the untyped nil interface returns no error: it panics
(`reflect.ValueOf(nil).Type()`), the state untouched, the record-shape
error branch never reached. -/
theorem c10_nil_message_panics (encode : String → Int → Record → Option Bytes)
    (cfg : Config) (sched : Option Conn) (st : State) (tag : String) (tm : Int) :
    PostWithTime encode cfg sched st tag tm .nilv = (st, .panicked, none) := rfl

end Fluent
